import Mathlib

/-!
Shallow embedding of the credential-storage subsystem of
`src/internal/config/config.go` (package `config`).

The Go code persists a single access token, preferring the OS keyring
(via `github.com/99designs/keyring`) and falling back to the file
`<ConfigDir>/access-token` with mode 0600.  We embed the functions
`readAccessToken`, `migrateAccessToken`, `WriteAccessToken`,
`DeleteAccessToken`, `readAccessTokenPath`, `writeAccessTokenPath` and
`deleteAccessTokenPath` as explicit state-passing functions over:

* `KeyringState` — the value stored under the fixed key `access-token`;
* `FileState`    — the fallback token file (mode bits and content), the
  default config file `pscale.yml`, and whether the config dir exists;
* `Env` — how `keyring.Open` resolves (`openKeyring`) and which external
  operations fail (`Faults`), modelling the error returns of the OS and
  of the keyring backend.

Outcomes model Go returns plus two non-return control flows present in
the source: `log.Fatal` (process termination, `config.go` lines 208 and
220) and the method call on the nil keyring interface value that happens
when `keyring.Open` fails with an error other than `ErrNoAvailImpl`
(the code only branches on `errors.Is(err, keyring.ErrNoAvailImpl)` and
then unconditionally calls `ring.Get` / `ring.Set` / `ring.Remove`).
-/

/-- Result of `openKeyring()` (`keyring.Open`): success, the
distinguished `keyring.ErrNoAvailImpl` (no backend on this host), or any
other open error (in which case the returned keyring value is nil). -/
inductive OpenResult where
  | ok
  | noAvailImpl
  | otherError
deriving DecidableEq, Repr

/-- Go error values that the embedded functions can return. -/
inductive GoError where
  | errKeyNotFound      -- keyring.ErrKeyNotFound from ring.Get / ring.Remove
  | getOther            -- any other error from ring.Get
  | setFailed           -- error from ring.Set
  | removeKeyNotFound   -- backend Remove on an absent key
  | removeKeyOther      -- any other error from ring.Remove
  | errNotExist         -- an error satisfying os.IsNotExist (stat / remove)
  | removeFailed        -- os.Remove failure, returned raw (migrate path)
  | removeTokenWrapped  -- "error removing access token file" (delete path)
  | removeConfigWrapped -- "error removing default config file" (delete path)
  | configDirFailed     -- homedir.Expand failure inside ConfigDir
  | statDirOther        -- non-NotExist os.Stat failure on the config dir
  | mkdirFailed         -- os.MkdirAll failure
  | writeFailed         -- ioutil.WriteFile failure
deriving DecidableEq, Repr

/-- Outcome of running one of the embedded operations: a normal Go
return (`ok` / `err`), process termination by `log.Fatal`, or the panic
caused by invoking a method on the nil keyring interface. -/
inductive Outcome (α : Type) where
  | ok (a : α)
  | err (e : GoError)
  | fatalExit
  | nilPanic
deriving DecidableEq, Repr

/-- State of the OS keyring: the value stored under the fixed key
`access-token` of service `pscale`, if any. -/
structure KeyringState where
  value : Option String
deriving DecidableEq, Repr

/-- State of the filesystem locations the code touches: the fallback
token file `<ConfigDir>/access-token` as (FileMode bits, content), the
default config file `<ConfigDir>/pscale.yml`, and the config dir. -/
structure FileState where
  tokenFile : Option (Nat × String)
  configFile : Bool
  dirExists : Bool
deriving DecidableEq, Repr

/-- Combined mutable state seen by the credential subsystem. -/
structure State where
  ring : KeyringState
  fs : FileState
deriving DecidableEq, Repr

/-- Fault injection for the external operations: each flag makes the
corresponding OS / keyring call fail, modelling the error returns the Go
code branches on.  Stat and remove faults model failures other than
NotExist; NotExist itself is derived from the state. -/
structure Faults where
  configDirErr : Bool    -- homedir.Expand fails in ConfigDir()
  getErr : Bool          -- ring.Get fails with an error ≠ ErrKeyNotFound
  setErr : Bool          -- ring.Set fails
  removeKeyErr : Bool    -- ring.Remove fails with an error ≠ not-found
  statErr : Bool         -- os.Stat(tokenPath) fails with a non-NotExist error
  chmodErr : Bool        -- os.Chmod(tokenPath, 0600) fails
  readErr : Bool         -- ioutil.ReadFile(tokenPath) fails
  removeTokenErr : Bool  -- os.Remove(tokenPath) fails (non-NotExist)
  removeConfigErr : Bool -- os.Remove(configFile) fails (non-NotExist)
  statDirErr : Bool      -- os.Stat(configDir) fails with a non-NotExist error
  mkdirErr : Bool        -- os.MkdirAll(configDir, 0771) fails
  writeErr : Bool        -- ioutil.WriteFile fails
deriving DecidableEq, Repr

/-- The fault record with every injected failure off. -/
def noFaults : Faults :=
  ⟨false, false, false, false, false, false, false, false, false, false, false, false⟩

/-- Environment of one call: how `openKeyring` resolves and which
external operations fail. -/
structure Env where
  openResult : OpenResult
  faults : Faults
deriving DecidableEq, Repr

/-- Go's `tokenFileMode = 0o600` constant. -/
def tokenFileMode : Nat := 0o600

/-- Go's bit-clear operator `a &^ b` on the 32-bit `os.FileMode`. -/
def goAndNot (a b : Nat) : Nat := a &&& (b ^^^ (2 ^ 32 - 1))

/-- Embeds `readAccessTokenPath` (config.go lines 198-225): resolve the
token path, `os.Stat` it (a non-NotExist stat error hits `log.Fatal`;
NotExist is returned as the error), repair the mode via `os.Chmod` when
`stat.Mode()&^tokenFileMode != 0` (a chmod failure is only logged), then
`ioutil.ReadFile` (whose failure hits `log.Fatal`). -/
def readAccessTokenPath (f : Faults) (fs : FileState) : Outcome String × FileState :=
  if f.configDirErr then (.err .configDirFailed, fs)
  else if f.statErr then (.fatalExit, fs)
  else
    match fs.tokenFile with
    | none => (.err .errNotExist, fs)
    | some (mode, content) =>
      let fs1 : FileState :=
        if goAndNot mode tokenFileMode != 0 then
          if f.chmodErr then fs
          else { fs with tokenFile := some (tokenFileMode, content) }
        else fs
      if f.readErr then (.fatalExit, fs1) else (.ok content, fs1)

/-- Embeds `migrateAccessToken` (config.go lines 133-150): `ring.Set`
the token (failure returned), resolve the file path (failure returned),
`os.Remove` the file (any failure returned raw, NotExist included), then
return the token. -/
def migrateAccessToken (f : Faults) (s : State) (accessToken : String) :
    Outcome String × State :=
  if f.setErr then (.err .setFailed, s)
  else
    let s1 : State := { s with ring := ⟨some accessToken⟩ }
    if f.configDirErr then (.err .configDirFailed, s1)
    else
      match s1.fs.tokenFile with
      | none => (.err .errNotExist, s1)
      | some _ =>
        if f.removeTokenErr then (.err .removeFailed, s1)
        else (.ok accessToken, { s1 with fs := { s1.fs with tokenFile := none } })

/-- Embeds `ring.Get(keyringKey)` of the 99designs keyring: the stored
item if present, `ErrKeyNotFound` if absent, or an injected other
error. -/
def ringGet (f : Faults) (k : KeyringState) : Outcome String :=
  if f.getErr then .err .getOther
  else
    match k.value with
    | some v => .ok v
    | none => .err .errKeyNotFound

/-- Embeds `ring.Remove(keyringKey)`: removes the stored item, reports
not-found on an absent key, or an injected other error. -/
def ringRemove (f : Faults) (k : KeyringState) : Outcome Unit × KeyringState :=
  if f.removeKeyErr then (.err .removeKeyOther, k)
  else
    match k.value with
    | some _ => (.ok (), ⟨none⟩)
    | none => (.err .removeKeyNotFound, k)

/-- Embeds `readAccessToken` (config.go lines 108-131): open the
keyring; on `ErrNoAvailImpl` read the fallback file and return its
content together with its error; on any other open error the code falls
through and calls `Get` on the nil keyring (panic); otherwise `Get`, and
on `ErrKeyNotFound` read the fallback file and migrate a non-empty
token, returning `("", nil)` when the file read errs or yields an empty
token; any other `Get` error is returned. -/
def readAccessToken (env : Env) (s : State) : Outcome String × State :=
  match env.openResult with
  | .noAvailImpl =>
    let r := readAccessTokenPath env.faults s.fs
    (r.1, { s with fs := r.2 })
  | .otherError => (.nilPanic, s)
  | .ok =>
    match ringGet env.faults s.ring with
    | .ok v => (.ok v, s)
    | .err .errKeyNotFound =>
      let r := readAccessTokenPath env.faults s.fs
      let s1 : State := { s with fs := r.2 }
      match r.1 with
      | .ok t => if 0 < t.length then migrateAccessToken env.faults s1 t else (.ok "", s1)
      | .err _ => (.ok "", s1)
      | .fatalExit => (.fatalExit, s1)
      | .nilPanic => (.nilPanic, s1)
    | .err e => (.err e, s)
    | .fatalExit => (.fatalExit, s)
    | .nilPanic => (.nilPanic, s)

/-- Embeds `writeAccessTokenPath` (config.go lines 254-282): resolve the
config dir, `os.Stat` it (NotExist triggers `os.MkdirAll`, any other
stat error is returned), resolve the token path, and `ioutil.WriteFile`
with `tokenFileMode`.  WriteFile creates an absent file with mode 0600
but leaves the mode of an existing file unchanged (O_CREATE semantics),
truncating and rewriting content either way. -/
def writeAccessTokenPath (f : Faults) (fs : FileState) (accessToken : String) :
    Outcome Unit × FileState :=
  if f.configDirErr then (.err .configDirFailed, fs)
  else
    if fs.dirExists then
      if f.statDirErr then (.err .statDirOther, fs)
      else if f.writeErr then (.err .writeFailed, fs)
      else
        match fs.tokenFile with
        | some (mode, _) => (.ok (), { fs with tokenFile := some (mode, accessToken) })
        | none => (.ok (), { fs with tokenFile := some (tokenFileMode, accessToken) })
    else
      if f.mkdirErr then (.err .mkdirFailed, fs)
      else
        let fs1 : FileState := { fs with dirExists := true }
        if f.writeErr then (.err .writeFailed, fs1)
        else
          match fs1.tokenFile with
          | some (mode, _) => (.ok (), { fs1 with tokenFile := some (mode, accessToken) })
          | none => (.ok (), { fs1 with tokenFile := some (tokenFileMode, accessToken) })

/-- Embeds `WriteAccessToken` (config.go lines 152-163): open the
keyring; on `ErrNoAvailImpl` write the fallback file; on any other open
error the code calls `Set` on the nil keyring (panic); otherwise return
`ring.Set`'s result. -/
def WriteAccessToken (env : Env) (s : State) (accessToken : String) :
    Outcome Unit × State :=
  match env.openResult with
  | .noAvailImpl =>
    let r := writeAccessTokenPath env.faults s.fs accessToken
    (r.1, { s with fs := r.2 })
  | .otherError => (.nilPanic, s)
  | .ok =>
    if env.faults.setErr then (.err .setFailed, s)
    else (.ok (), { s with ring := ⟨some accessToken⟩ })

/-- Embeds `deleteAccessTokenPath` (config.go lines 227-252): resolve
the token path, `os.Remove` it (NotExist absorbed, other failures
wrapped and returned), resolve the default config path, `os.Remove` it
(same policy), then succeed. -/
def deleteAccessTokenPath (f : Faults) (fs : FileState) : Outcome Unit × FileState :=
  if f.configDirErr then (.err .configDirFailed, fs)
  else
    match fs.tokenFile with
    | some _ =>
      if f.removeTokenErr then (.err .removeTokenWrapped, fs)
      else
        let fs1 : FileState := { fs with tokenFile := none }
        if fs1.configFile then
          if f.removeConfigErr then (.err .removeConfigWrapped, fs1)
          else (.ok (), { fs1 with configFile := false })
        else (.ok (), fs1)
    | none =>
      if fs.configFile then
        if f.removeConfigErr then (.err .removeConfigWrapped, fs)
        else (.ok (), { fs with configFile := false })
      else (.ok (), fs)

/-- Embeds `DeleteAccessToken` (config.go lines 165-173): open the
keyring; on `ErrNoAvailImpl` delete the fallback file and default config
file; on any other open error the code calls `Remove` on the nil keyring
(panic); otherwise return `ring.Remove`'s result. -/
def DeleteAccessToken (env : Env) (s : State) : Outcome Unit × State :=
  match env.openResult with
  | .noAvailImpl =>
    let r := deleteAccessTokenPath env.faults s.fs
    (r.1, { s with fs := r.2 })
  | .otherError => (.nilPanic, s)
  | .ok =>
    let r := ringRemove env.faults s.ring
    (r.1, { s with ring := r.2 })

/-! Helper definitions and lemmas shared by the claim theorems. -/

/-- The mode of the token file after the repair step of
`readAccessTokenPath`: repaired to 0600 exactly when the file's mode has
a bit outside 0600 and the chmod call does not fail. -/
def repairedMode (f : Faults) (mode : Nat) : Nat :=
  if goAndNot mode tokenFileMode != 0 then
    if f.chmodErr then mode else tokenFileMode
  else mode

theorem readAccessTokenPath_ok (f : Faults) (mode : Nat) (content : String)
    (cf de : Bool) (hcfg : f.configDirErr = false) (hstat : f.statErr = false)
    (hread : f.readErr = false) :
    readAccessTokenPath f ⟨some (mode, content), cf, de⟩ =
      (.ok content, ⟨some (repairedMode f mode, content), cf, de⟩) := by
  simp only [readAccessTokenPath, repairedMode, hcfg, hstat, hread,
    Bool.false_eq_true, if_false]
  split
  · split <;> rfl
  · rfl

/-! Claim C1. -/

/-- C1 counterexample: SecureStore available and empty, fallback file
holding the non-empty secret "S", `ring.Set` failing.  `readAccessToken`
returns the Set error, not "S": contrary to the claim, the read does not
succeed. -/
theorem C1_counterexample :
    (readAccessToken ⟨.ok, { noFaults with setErr := true }⟩
        ⟨⟨none⟩, ⟨some (tokenFileMode, "S"), false, true⟩⟩).1 ≠ .ok "S" ∧
    (readAccessToken ⟨.ok, { noFaults with setErr := true }⟩
        ⟨⟨none⟩, ⟨some (tokenFileMode, "S"), false, true⟩⟩).1 = .err .setFailed := by
  constructor <;> decide

/-- C1 (amended): during the read path's migration step (SecureStore
reports NotFound, fallback file holds a non-empty secret S), if `Set`
fails then `readAccessToken` returns the Set error — the read fails
instead of returning S — while the fallback file is not deleted (it
still holds S) and the keyring stays empty. -/
theorem C1_set_failure_aborts_migration (f : Faults) (mode : Nat) (S : String)
    (cf de : Bool) (hS : 0 < S.length) (hget : f.getErr = false)
    (hcfg : f.configDirErr = false) (hstat : f.statErr = false)
    (hread : f.readErr = false) (hset : f.setErr = true) :
    (readAccessToken ⟨.ok, f⟩ ⟨⟨none⟩, ⟨some (mode, S), cf, de⟩⟩).1 = .err .setFailed ∧
    (readAccessToken ⟨.ok, f⟩ ⟨⟨none⟩, ⟨some (mode, S), cf, de⟩⟩).2.fs.tokenFile.map
      Prod.snd = some S ∧
    (readAccessToken ⟨.ok, f⟩ ⟨⟨none⟩, ⟨some (mode, S), cf, de⟩⟩).2.ring.value = none := by
  have hg : ringGet f ⟨none⟩ = .err .errKeyNotFound := by simp [ringGet, hget]
  have hp := readAccessTokenPath_ok f mode S cf de hcfg hstat hread
  simp [readAccessToken, hg, hp, migrateAccessToken, hset, hS]

/-- C1 witness: the amended theorem at mode 0600 and secret "S". -/
theorem C1_set_failure_aborts_migration_witness :
    (readAccessToken ⟨.ok, { noFaults with setErr := true }⟩
        ⟨⟨none⟩, ⟨some (0o600, "S"), false, true⟩⟩).1 = .err .setFailed ∧
    (readAccessToken ⟨.ok, { noFaults with setErr := true }⟩
        ⟨⟨none⟩, ⟨some (0o600, "S"), false, true⟩⟩).2.fs.tokenFile.map
      Prod.snd = some "S" ∧
    (readAccessToken ⟨.ok, { noFaults with setErr := true }⟩
        ⟨⟨none⟩, ⟨some (0o600, "S"), false, true⟩⟩).2.ring.value = none :=
  C1_set_failure_aborts_migration { noFaults with setErr := true } 0o600 "S"
    false true (by decide) rfl rfl rfl rfl rfl

/-! Claim C2. -/

/-- C2 counterexample: SecureStore available and empty, fallback file
holding "S", `ring.Set` succeeding but `os.Remove` of the file failing.
`readAccessToken` returns the Remove error, not "S": contrary to the
claim, the read is not considered successful. -/
theorem C2_counterexample :
    (readAccessToken ⟨.ok, { noFaults with removeTokenErr := true }⟩
        ⟨⟨none⟩, ⟨some (tokenFileMode, "S"), false, true⟩⟩).1 ≠ .ok "S" ∧
    (readAccessToken ⟨.ok, { noFaults with removeTokenErr := true }⟩
        ⟨⟨none⟩, ⟨some (tokenFileMode, "S"), false, true⟩⟩).1 = .err .removeFailed := by
  constructor <;> decide

/-- C2 (amended): during migration, if `Set` succeeds but the `os.Remove`
of the fallback file fails, `readAccessToken` returns the Remove error —
the read fails instead of returning the token — leaving the secret in
the keyring and the stale copy still in the file. -/
theorem C2_remove_failure_returns_error (f : Faults) (mode : Nat) (S : String)
    (cf de : Bool) (hS : 0 < S.length) (hget : f.getErr = false)
    (hcfg : f.configDirErr = false) (hstat : f.statErr = false)
    (hread : f.readErr = false) (hset : f.setErr = false)
    (hrem : f.removeTokenErr = true) :
    (readAccessToken ⟨.ok, f⟩ ⟨⟨none⟩, ⟨some (mode, S), cf, de⟩⟩).1 = .err .removeFailed ∧
    (readAccessToken ⟨.ok, f⟩ ⟨⟨none⟩, ⟨some (mode, S), cf, de⟩⟩).2.ring.value = some S ∧
    (readAccessToken ⟨.ok, f⟩ ⟨⟨none⟩, ⟨some (mode, S), cf, de⟩⟩).2.fs.tokenFile.map
      Prod.snd = some S := by
  have hg : ringGet f ⟨none⟩ = .err .errKeyNotFound := by simp [ringGet, hget]
  have hp := readAccessTokenPath_ok f mode S cf de hcfg hstat hread
  simp [readAccessToken, hg, hp, migrateAccessToken, hset, hcfg, hrem, hS]

/-- C2 witness: the amended theorem at mode 0600 and secret "S". -/
theorem C2_remove_failure_returns_error_witness :
    (readAccessToken ⟨.ok, { noFaults with removeTokenErr := true }⟩
        ⟨⟨none⟩, ⟨some (0o600, "S"), false, true⟩⟩).1 = .err .removeFailed ∧
    (readAccessToken ⟨.ok, { noFaults with removeTokenErr := true }⟩
        ⟨⟨none⟩, ⟨some (0o600, "S"), false, true⟩⟩).2.ring.value = some "S" ∧
    (readAccessToken ⟨.ok, { noFaults with removeTokenErr := true }⟩
        ⟨⟨none⟩, ⟨some (0o600, "S"), false, true⟩⟩).2.fs.tokenFile.map
      Prod.snd = some "S" :=
  C2_remove_failure_returns_error { noFaults with removeTokenErr := true } 0o600 "S"
    false true (by decide) rfl rfl rfl rfl rfl rfl

/-! Claim C3. -/

/-- C3: when the SecureStore reports NotFound for the key, the fallback
file holds a non-empty secret S, and both `ring.Set` and the file
`os.Remove` succeed, `readAccessToken` returns S, the keyring afterwards
holds S under the key, and the fallback file no longer exists. -/
theorem C3_migration_moves_secret (f : Faults) (mode : Nat) (S : String)
    (cf de : Bool) (hS : 0 < S.length) (hget : f.getErr = false)
    (hcfg : f.configDirErr = false) (hstat : f.statErr = false)
    (hread : f.readErr = false) (hset : f.setErr = false)
    (hrem : f.removeTokenErr = false) :
    (readAccessToken ⟨.ok, f⟩ ⟨⟨none⟩, ⟨some (mode, S), cf, de⟩⟩).1 = .ok S ∧
    (readAccessToken ⟨.ok, f⟩ ⟨⟨none⟩, ⟨some (mode, S), cf, de⟩⟩).2.ring.value = some S ∧
    (readAccessToken ⟨.ok, f⟩ ⟨⟨none⟩, ⟨some (mode, S), cf, de⟩⟩).2.fs.tokenFile
      = none := by
  have hg : ringGet f ⟨none⟩ = .err .errKeyNotFound := by simp [ringGet, hget]
  have hp := readAccessTokenPath_ok f mode S cf de hcfg hstat hread
  simp [readAccessToken, hg, hp, migrateAccessToken, hset, hcfg, hrem, hS]

/-- C3 witness: migration at mode 0644 and secret "tok-B". -/
theorem C3_migration_moves_secret_witness :
    (readAccessToken ⟨.ok, noFaults⟩
        ⟨⟨none⟩, ⟨some (0o644, "tok-B"), false, true⟩⟩).1 = .ok "tok-B" ∧
    (readAccessToken ⟨.ok, noFaults⟩
        ⟨⟨none⟩, ⟨some (0o644, "tok-B"), false, true⟩⟩).2.ring.value = some "tok-B" ∧
    (readAccessToken ⟨.ok, noFaults⟩
        ⟨⟨none⟩, ⟨some (0o644, "tok-B"), false, true⟩⟩).2.fs.tokenFile = none :=
  C3_migration_moves_secret noFaults 0o644 "tok-B" false true (by decide)
    rfl rfl rfl rfl rfl rfl

/-! Claim C4. -/

/-- C4: contrary to the claim (and agreeing with the spec's stated
intent), in file-only mode with the fallback file absent and no other
fault, `readAccessToken` returns the NotExist error from `os.Stat`
instead of absorbing it into a "no credential" success: the Go code
returns `readAccessTokenPath`'s error unfiltered (config.go line 113),
so the absence of the file does reach the caller as an error. -/
theorem C4_file_only_absent_file_returns_error :
    readAccessToken ⟨.noAvailImpl, noFaults⟩ ⟨⟨none⟩, ⟨none, false, true⟩⟩ =
      (.err .errNotExist, ⟨⟨none⟩, ⟨none, false, true⟩⟩) := rfl

/-! Claim C5. -/

/-- C5 counterexample: with the SecureStore available and holding a
token, `DeleteAccessToken` twice in a row errors on the second run: the
second `ring.Remove` reports not-found and `DeleteAccessToken` returns
that error unfiltered (config.go line 172), contrary to the claim. -/
theorem C5_counterexample :
    (DeleteAccessToken ⟨.ok, noFaults⟩ ⟨⟨some "tok"⟩, ⟨none, false, true⟩⟩).1
      = .ok () ∧
    (DeleteAccessToken ⟨.ok, noFaults⟩
        (DeleteAccessToken ⟨.ok, noFaults⟩ ⟨⟨some "tok"⟩, ⟨none, false, true⟩⟩).2).1
      = .err .removeKeyNotFound := by
  constructor <;> decide

/-- C5 (amended): when the SecureStore is available and `ring.Remove`
reports not-found (key absent), `DeleteAccessToken` returns that error —
keyring-mode delete is not idempotent.  In file-only mode, however,
delete is idempotent: a second fault-free `DeleteAccessToken` after a
first one succeeds (NotExist from `os.Remove` is absorbed). -/
theorem C5_keyring_notfound_propagates (f : Faults) (s : State)
    (hrem : f.removeKeyErr = false) (hv : s.ring.value = none) :
    (DeleteAccessToken ⟨.ok, f⟩ s).1 = .err .removeKeyNotFound ∧
    (DeleteAccessToken ⟨.noAvailImpl, noFaults⟩
        (DeleteAccessToken ⟨.noAvailImpl, noFaults⟩ s).2).1 = .ok () := by
  obtain ⟨⟨v⟩, ⟨tf, cfg, de⟩⟩ := s
  have hv' : v = none := hv
  subst hv'
  constructor
  · simp [DeleteAccessToken, ringRemove, hrem]
  · rcases tf with _ | ⟨m, c⟩ <;> rcases cfg <;>
      simp [DeleteAccessToken, deleteAccessTokenPath, noFaults]

/-- C5 witness: the amended theorem with fallback file and config file
both present. -/
theorem C5_keyring_notfound_propagates_witness :
    (DeleteAccessToken ⟨.ok, noFaults⟩
        ⟨⟨none⟩, ⟨some (0o600, "x"), true, true⟩⟩).1 = .err .removeKeyNotFound ∧
    (DeleteAccessToken ⟨.noAvailImpl, noFaults⟩
        (DeleteAccessToken ⟨.noAvailImpl, noFaults⟩
          ⟨⟨none⟩, ⟨some (0o600, "x"), true, true⟩⟩).2).1 = .ok () :=
  C5_keyring_notfound_propagates noFaults ⟨⟨none⟩, ⟨some (0o600, "x"), true, true⟩⟩
    rfl rfl

/-! Claim C6. -/

/-- C6 counterexample: SecureStore available and holding a token, stale
fallback file present.  `DeleteAccessToken` succeeds via `ring.Remove`
but the fallback file is untouched, contrary to the claim that both
backends are cleared. -/
theorem C6_counterexample :
    (DeleteAccessToken ⟨.ok, noFaults⟩
        ⟨⟨some "tok"⟩, ⟨some (tokenFileMode, "stale"), true, true⟩⟩).1 = .ok () ∧
    (DeleteAccessToken ⟨.ok, noFaults⟩
        ⟨⟨some "tok"⟩, ⟨some (tokenFileMode, "stale"), true, true⟩⟩).2.fs.tokenFile
      = some (tokenFileMode, "stale") := by
  constructor <;> decide

/-- C6 (amended): when the SecureStore is available, `DeleteAccessToken`
only calls `ring.Remove` and never touches the filesystem: the fallback
file (and the default config file) are deleted only in the
`ErrNoAvailImpl` branch, so the two clears are exclusive, not
independent. -/
theorem C6_keyring_delete_leaves_file (f : Faults) (s : State) :
    (DeleteAccessToken ⟨.ok, f⟩ s).2.fs = s.fs := rfl

/-! Claim C7. -/

/-- C7 counterexample: a fallback file with mode 0400 deviates from 0600
but `stat.Mode()&^0600 == 0`, so `readAccessTokenPath` performs no
chmod: the mode is left at 0400 while the content is read, contrary to
the claim that any deviation is corrected. -/
theorem C7_counterexample :
    readAccessTokenPath noFaults ⟨some (0o400, "S"), false, true⟩ =
      (.ok "S", ⟨some (0o400, "S"), false, true⟩) := by
  decide

/-- C7 (amended): before a fallback-file read, the mode is corrected to
0600 exactly when it has a permission bit outside 0600 (`mode &^ 0600 ≠
0`, e.g. 0644) and the chmod call succeeds; a mode whose bits are a
subset of 0600 (such as 0400) is left unchanged.  In both cases the
content is read and preserved. -/
theorem C7_mode_repair_only_on_extra_bits (f : Faults) (mode : Nat)
    (content : String) (cf de : Bool) (hcfg : f.configDirErr = false)
    (hstat : f.statErr = false) (hread : f.readErr = false)
    (hchmod : f.chmodErr = false) :
    (goAndNot mode tokenFileMode ≠ 0 →
      readAccessTokenPath f ⟨some (mode, content), cf, de⟩ =
        (.ok content, ⟨some (tokenFileMode, content), cf, de⟩)) ∧
    (goAndNot mode tokenFileMode = 0 →
      readAccessTokenPath f ⟨some (mode, content), cf, de⟩ =
        (.ok content, ⟨some (mode, content), cf, de⟩)) := by
  have hp := readAccessTokenPath_ok f mode content cf de hcfg hstat hread
  constructor <;> intro h <;> simp [hp, repairedMode, h, hchmod]

/-- C7 witness: a 0644 file is repaired to 0600 with its content kept. -/
theorem C7_mode_repair_only_on_extra_bits_witness :
    readAccessTokenPath noFaults ⟨some (0o644, "tok"), false, true⟩ =
      (.ok "tok", ⟨some (tokenFileMode, "tok"), false, true⟩) :=
  (C7_mode_repair_only_on_extra_bits noFaults 0o644 "tok" false true
    rfl rfl rfl rfl).1 (by decide)

/-! Claim C8. -/

/-- C8 counterexample: in file-only mode, a non-NotExist `os.Stat`
failure makes `readAccessToken` hit `log.Fatal` (process termination,
config.go line 208) — the failure does not propagate as an error to the
caller, contrary to the claim. -/
theorem C8_counterexample :
    (readAccessToken ⟨.noAvailImpl, { noFaults with statErr := true }⟩
        ⟨⟨none⟩, ⟨some (tokenFileMode, "S"), false, true⟩⟩).1 = .fatalExit := by
  decide

/-- C8 (amended): a stat failure that is not NotExist, and a read
failure on an existing file, terminate the process via `log.Fatal`
inside `readAccessTokenPath` (config.go lines 208 and 220) instead of
propagating as errors to the caller. -/
theorem C8_io_failure_terminates_process (f : Faults) (fs : FileState)
    (mode : Nat) (content : String) (cf de : Bool)
    (hcfg : f.configDirErr = false) :
    (f.statErr = true → readAccessTokenPath f fs = (.fatalExit, fs)) ∧
    (f.statErr = false → f.readErr = true →
      (readAccessTokenPath f ⟨some (mode, content), cf, de⟩).1 = .fatalExit) := by
  constructor
  · intro h
    simp [readAccessTokenPath, hcfg, h]
  · intro h1 h2
    simp only [readAccessTokenPath, hcfg, h1, h2, Bool.false_eq_true, if_false, if_true]

/-- C8 witness: the amended theorem at a stat fault and at a read fault. -/
theorem C8_io_failure_terminates_process_witness :
    readAccessTokenPath { noFaults with statErr := true } ⟨none, false, true⟩ =
      (.fatalExit, ⟨none, false, true⟩) ∧
    (readAccessTokenPath { noFaults with readErr := true }
        ⟨some (0o600, "S"), false, true⟩).1 = .fatalExit :=
  ⟨(C8_io_failure_terminates_process { noFaults with statErr := true }
      ⟨none, false, true⟩ 0 "" false true rfl).1 rfl,
   (C8_io_failure_terminates_process { noFaults with readErr := true }
      ⟨none, false, true⟩ 0o600 "S" false true rfl).2 rfl rfl⟩

/-! Claim C9. -/

/-- C9: for every prior state and every secret, a fault-free
`WriteAccessToken` followed by `readAccessToken` returns exactly the
written secret, both when the SecureStore is available and when opening
it fails with `ErrNoAvailImpl`; in the latter case, when the fallback
file was absent, the write creates it with mode 0600 and the secret as
content. -/
theorem C9_write_then_read_roundtrip (s : State) (secret : String) :
    ((WriteAccessToken ⟨.ok, noFaults⟩ s secret).1 = .ok () ∧
      (readAccessToken ⟨.ok, noFaults⟩
        (WriteAccessToken ⟨.ok, noFaults⟩ s secret).2).1 = .ok secret) ∧
    ((WriteAccessToken ⟨.noAvailImpl, noFaults⟩ s secret).1 = .ok () ∧
      (readAccessToken ⟨.noAvailImpl, noFaults⟩
        (WriteAccessToken ⟨.noAvailImpl, noFaults⟩ s secret).2).1 = .ok secret) ∧
    (s.fs.tokenFile = none →
      (WriteAccessToken ⟨.noAvailImpl, noFaults⟩ s secret).2.fs.tokenFile =
        some (tokenFileMode, secret)) := by
  obtain ⟨⟨v⟩, ⟨tf, cfg, de⟩⟩ := s
  refine ⟨⟨rfl, rfl⟩, ?_, ?_⟩
  · rcases tf with _ | ⟨m, c⟩ <;> rcases de <;>
      simp [WriteAccessToken, writeAccessTokenPath, readAccessToken, noFaults,
        readAccessTokenPath_ok, repairedMode]
  · intro h
    have h' : tf = none := h
    subst h'
    rcases de <;> simp [WriteAccessToken, writeAccessTokenPath, noFaults]

/-- C9 witness: from the empty state with no config dir, writing "tok-A"
in file-only mode creates the 0600 file and reading it back returns
"tok-A"; the keyring round trip also returns "tok-A". -/
theorem C9_write_then_read_roundtrip_witness :
    ((WriteAccessToken ⟨.ok, noFaults⟩ ⟨⟨none⟩, ⟨none, false, false⟩⟩ "tok-A").1
        = .ok () ∧
      (readAccessToken ⟨.ok, noFaults⟩
        (WriteAccessToken ⟨.ok, noFaults⟩
          ⟨⟨none⟩, ⟨none, false, false⟩⟩ "tok-A").2).1 = .ok "tok-A") ∧
    ((WriteAccessToken ⟨.noAvailImpl, noFaults⟩
        ⟨⟨none⟩, ⟨none, false, false⟩⟩ "tok-A").1 = .ok () ∧
      (readAccessToken ⟨.noAvailImpl, noFaults⟩
        (WriteAccessToken ⟨.noAvailImpl, noFaults⟩
          ⟨⟨none⟩, ⟨none, false, false⟩⟩ "tok-A").2).1 = .ok "tok-A") ∧
    (WriteAccessToken ⟨.noAvailImpl, noFaults⟩
        ⟨⟨none⟩, ⟨none, false, false⟩⟩ "tok-A").2.fs.tokenFile =
      some (tokenFileMode, "tok-A") :=
  ⟨(C9_write_then_read_roundtrip ⟨⟨none⟩, ⟨none, false, false⟩⟩ "tok-A").1,
   (C9_write_then_read_roundtrip ⟨⟨none⟩, ⟨none, false, false⟩⟩ "tok-A").2.1,
   (C9_write_then_read_roundtrip ⟨⟨none⟩, ⟨none, false, false⟩⟩ "tok-A").2.2 rfl⟩

/-! Claim C10. -/

/-- C10: when `keyring.Open` fails with any error other than
`ErrNoAvailImpl`, `readAccessToken`, `WriteAccessToken` and
`DeleteAccessToken` do not return that error: the code falls through its
single `errors.Is(err, keyring.ErrNoAvailImpl)` branch and invokes
`Get`/`Set`/`Remove` on the nil keyring value, which panics — the open
error is never surfaced and no state changes. -/
theorem C10_open_error_invokes_nil_keyring (f : Faults) (s : State) (t : String) :
    readAccessToken ⟨.otherError, f⟩ s = (.nilPanic, s) ∧
    WriteAccessToken ⟨.otherError, f⟩ s t = (.nilPanic, s) ∧
    DeleteAccessToken ⟨.otherError, f⟩ s = (.nilPanic, s) :=
  ⟨rfl, rfl, rfl⟩
